import Mathlib

/-!
Verification development for the pyfc typed-value system and unit-resolution
engine (`pyfc/models/value.py`, `pyfc/utils/convert.py`,
`pyfc/ios/value_handler.py`, `pyfc/ios/qto_property.py`,
`pyfc/ios/properties.py`).

Python scalars are modelled by `PyVal` (floats as rationals, which is faithful
for the finite literals appearing in the claims).  Raised exceptions are
modelled with `Except`/`Option`.  Entity state is an association list of
entity ids to entity data, together with the fresh-id counter and the
context's `_is_modified` flag.
-/

set_option maxRecDepth 4000

set_option allowUnsafeReducibility true

attribute [local semireducible] Rat.add Rat.sub Rat.mul Rat.inv Rat.div Rat.ofScientific Rat.floor Rat.ceil

/-- Model of a Python scalar value as used by the value factory and the
entity store: `bool`, `int`, `float` (as an exact rational) or `str`. -/
inductive PyVal where
  | pybool (b : Bool)
  | pyint (n : Int)
  | pyfloat (q : ℚ)
  | pystr (s : String)
deriving DecidableEq

/-- Truncation toward zero, the behaviour of Python `int(float)`. -/
def pyTrunc (q : ℚ) : Int :=
  if q < 0 then ⌈q⌉ else ⌊q⌋

/-- `True` iff every character of the list is an ASCII digit. -/
def allDigits : List Char → Bool
  | [] => true
  | c :: cs => c.isDigit && allDigits cs

/-- Numeric value of a digit list (most significant first), accumulator form. -/
def digitsVal : List Char → Nat → Nat
  | [], acc => acc
  | c :: cs, acc => digitsVal cs (acc * 10 + (c.toNat - '0'.toNat))

/-- Strip one optional leading sign, returning (negative?, rest). -/
def splitSign : List Char → Bool × List Char
  | '-' :: cs => (true, cs)
  | '+' :: cs => (false, cs)
  | cs => (false, cs)

/-- Model of Python `int(str)`: optional sign followed by digits.
(Surrounding whitespace, underscores and other Python niceties are not
needed by any claim and are omitted from the model.) -/
def parseInt (s : String) : Option Int :=
  let (neg, ds) := splitSign s.data
  if ds ≠ [] ∧ allDigits ds then
    let v : Int := digitsVal ds 0
    some (if neg then -v else v)
  else none

/-- Split a character list at its first `'.'`, when present. -/
def breakDot : List Char → Option (List Char × List Char)
  | [] => none
  | c :: tl =>
      if c = '.' then some ([], tl)
      else
        match breakDot tl with
        | some (a, b) => some (c :: a, b)
        | none => none

/-- Model of Python `float(str)`: optional sign, integer part and optional
fractional part, at least one digit in total.  (Exponent forms, `inf`, `nan`
are not needed by any claim and are omitted.) -/
def parseFloat (s : String) : Option ℚ :=
  let (neg, ds) := splitSign s.data
  match breakDot ds with
  | none =>
      if ds ≠ [] ∧ allDigits ds then
        let v : ℚ := (digitsVal ds 0 : ℚ)
        some (if neg then -v else v)
      else none
  | some (ip, fp) =>
      if (ip ≠ [] ∨ fp ≠ []) ∧ allDigits ip ∧ allDigits fp ∧ (breakDot fp).isNone then
        let v : ℚ := (digitsVal ip 0 : ℚ) + (digitsVal fp 0 : ℚ) / ((10 : ℚ) ^ fp.length)
        some (if neg then -v else v)
      else none

/-- Python `int(value)` as used by `convert.as_int`: `bool` is an `int`
subtype (`int(True) = 1`), `int(float)` truncates toward zero without
raising, strings must parse as an integer literal. -/
def pyIntOf : PyVal → Option Int
  | .pybool b => some (if b then 1 else 0)
  | .pyint n => some n
  | .pyfloat q => some (pyTrunc q)
  | .pystr s => parseInt s

/-- Python `float(value)` as used by `convert.as_float`. -/
def pyFloatOf : PyVal → Option ℚ
  | .pybool b => some (if b then 1 else 0)
  | .pyint n => some (n : ℚ)
  | .pyfloat q => some q
  | .pystr s => parseFloat s

/-- Python `str(value)`.  The exact float formatting is irrelevant to every
claim, so floats get a placeholder rendering. -/
def pyStrOf : PyVal → String
  | .pybool b => if b then "True" else "False"
  | .pyint n => toString n
  | .pyfloat q => toString q
  | .pystr s => s

/-- `convert.is_int`: `isinstance(value, int)` or `int(value)` succeeding. -/
def is_int (v : PyVal) : Bool :=
  (pyIntOf v).isSome

/-- `convert.is_float`. -/
def is_float (v : PyVal) : Bool :=
  (pyFloatOf v).isSome

/-- `convert.TRUE_VALUES`. -/
def TRUE_VALUES : List String := ["true", "yes", "ja", "1"]

/-- `convert.FALSE_VALUES`. -/
def FALSE_VALUES : List String := ["false", "no", "nein", "0"]

/-- `convert.as_bool`: a `bool` is returned as-is, anything else is rendered
with `str`, lower-cased and looked up in the truthy/falsy tables. -/
def as_bool (v : PyVal) : Option Bool :=
  match v with
  | .pybool b => some b
  | _ =>
      let s := (pyStrOf v).toLower
      if s ∈ TRUE_VALUES then some true
      else if s ∈ FALSE_VALUES then some false
      else none

/-- Python `==` between scalar values: numeric kinds compare by value
(`True == 1`), strings compare to strings, cross-kind comparisons are
`False`. -/
def pyEq : PyVal → PyVal → Bool
  | .pystr a, .pystr b => a = b
  | .pystr _, _ => false
  | _, .pystr _ => false
  | a, b =>
      match pyFloatOf a, pyFloatOf b with
      | some x, some y => x = y
      | _, _ => false

/-- `math.isclose` on rationals: `|a - b| <= max(rel_tol * max(|a|, |b|), abs_tol)`. -/
def ratIsClose (a b relTol absTol : ℚ) : Bool :=
  |a - b| ≤ max (relTol * max |a| |b|) absTol

/-- The default relative tolerance `rel_tol = 1e-9`. -/
def relTolDefault : ℚ := Rat.divInt 1 1000000000

/-- `convert.is_close` with its default tolerances (`rel_tol = 1e-9`,
`abs_tol = 0.0`): non-numeric operands are converted with `float` first and
fall back to `==` when conversion fails. -/
def is_close (a b : PyVal) : Bool :=
  match pyFloatOf a, pyFloatOf b with
  | some x, some y => ratIsClose x y relTolDefault 0
  | _, _ => pyEq a b

/-! ### Taxonomy enums (`pyfc/models/value.py`) -/

/-- `IfcPrefix` (named `IfcPfx` here): `NONE` plus the 16 SI magnitude
prefixes; the member value of `NONE` is the empty string. -/
inductive IfcPfx where
  | NONE | EXA | PETA | TERA | GIGA | MEGA | KILO | HECTO | DECA
  | DECI | CENTI | MILLI | MICRO | NANO | PICO | FEMTO | ATTO
deriving DecidableEq

/-- The member value strings of `IfcPrefix`. -/
def IfcPfx.val : IfcPfx → String
  | .NONE => ""
  | .EXA => "EXA"
  | .PETA => "PETA"
  | .TERA => "TERA"
  | .GIGA => "GIGA"
  | .MEGA => "MEGA"
  | .KILO => "KILO"
  | .HECTO => "HECTO"
  | .DECA => "DECA"
  | .DECI => "DECI"
  | .CENTI => "CENTI"
  | .MILLI => "MILLI"
  | .MICRO => "MICRO"
  | .NANO => "NANO"
  | .PICO => "PICO"
  | .FEMTO => "FEMTO"
  | .ATTO => "ATTO"

/-- The members of `IfcPrefix` in declaration order. -/
def pfxMembers : List IfcPfx :=
  [.NONE, .EXA, .PETA, .TERA, .GIGA, .MEGA, .KILO, .HECTO, .DECA,
   .DECI, .CENTI, .MILLI, .MICRO, .NANO, .PICO, .FEMTO, .ATTO]

/-- `IfcPrefix(value)` for `value : str | None`.  `None` and `""` resolve to
`NONE` (via `_missing_` resp. the direct value lookup); any other string is
looked up by exact member value.  On a miss, `_missing_` delegates to
`Enum._missing_`, which returns `None` without raising, so the enum
constructor raises `ValueError` — modelled as `none`.  (The case-insensitive
retry and warn-and-default code inside `IfcPrefix._missing_` sits in a
`except ValueError` branch that can never be entered and is dead.) -/
def pfxParse : Option String → Option IfcPfx
  | none => some .NONE
  | some s => pfxMembers.find? (fun p => p.val = s)

/-- `IfcValueType`: semantic value types, member values are the IFC type
name strings. -/
inductive IfcValueType where
  | REAL | INTEGER | BOOLEAN | TEXT | LABEL | LOGICAL | IDENTIFIER
deriving DecidableEq

/-- The member value strings of `IfcValueType`. -/
def IfcValueType.val : IfcValueType → String
  | .REAL => "IfcReal"
  | .INTEGER => "IfcInteger"
  | .BOOLEAN => "IfcBoolean"
  | .TEXT => "IfcText"
  | .LABEL => "IfcLabel"
  | .LOGICAL => "IfcLogical"
  | .IDENTIFIER => "IfcIdentifier"

/-- The members of `IfcValueType` in declaration order. -/
def vtMembers : List IfcValueType :=
  [.REAL, .INTEGER, .BOOLEAN, .TEXT, .LABEL, .LOGICAL, .IDENTIFIER]

/-- ASCII upper-casing of one character (all the strings involved are
ASCII). -/
def upChar (c : Char) : Char :=
  if 'a' ≤ c ∧ c ≤ 'z' then Char.ofNat (c.toNat - 32) else c

/-- ASCII upper-casing of a character list, modelling Python `str.upper`. -/
def upStr (l : List Char) : List Char :=
  l.map upChar

/-- `True` iff `pat` is a prefix of `l`. -/
def startsWith : List Char → List Char → Bool
  | _, [] => true
  | [], _ :: _ => false
  | a :: as, b :: bs => a = b && startsWith as bs

/-- `True` iff `pat` occurs as a contiguous sublist of `l`. -/
def hasSub : List Char → List Char → Bool
  | [], pat => pat.isEmpty
  | c :: tl, pat => startsWith (c :: tl) pat || hasSub tl pat

/-- Substring test on strings, modelling Python `pat in s`. -/
def containsSub (s pat : String) : Bool :=
  hasSub s.data pat.data

/-- `IfcValueType(value)` for a string: exact member-value lookup first, then
the `_missing_` hook, which maps `*MEASURE*` names (count measures to
INTEGER, logical/boolean measures to LOGICAL, everything else to REAL),
maps case variants of `IFCBOOLEAN` to BOOLEAN, and otherwise falls back to
TEXT with a warning.  It never raises for a string input. -/
def IfcValueType.ofString (s : String) : IfcValueType :=
  match vtMembers.find? (fun t => t.val = s) with
  | some t => t
  | none =>
      let u := upStr s.data
      if hasSub u "MEASURE".data then
        if hasSub u "COUNT".data then .INTEGER
        else if hasSub u "LOGICAL".data ∨ hasSub u "BOOLEAN".data then .LOGICAL
        else .REAL
      else if u = "IFCBOOLEAN".data then .BOOLEAN
      else .TEXT

/-- `IfcValueType.from_python_type`: `bool` first, then `is_int`, then
`is_float`, else TEXT. -/
def fromPythonType (v : PyVal) : IfcValueType :=
  match v with
  | .pybool _ => .LOGICAL
  | _ => if is_int v then .INTEGER else if is_float v then .REAL else .TEXT

/-- `IfcUnitType`: semantic unit types.  Each member carries the IFC
UnitEnum token, the default SI unit name, and the is-SI flag (below). -/
inductive IfcUnitType where
  | UNKNOWN | COUNT | LENGTH | AREA | VOLUME | MASS | TIME
  | TEMPERATURE | PRESSURE | ENERGY | POWER | PLANEANGLE
deriving DecidableEq

/-- `IfcUnitType.ifc_unit_enum` (first tuple component). -/
def IfcUnitType.ifcUnitEnum : IfcUnitType → Option String
  | .UNKNOWN => none
  | .COUNT => none
  | .LENGTH => some "LENGTHUNIT"
  | .AREA => some "AREAUNIT"
  | .VOLUME => some "VOLUMEUNIT"
  | .MASS => some "MASSUNIT"
  | .TIME => some "TIMEUNIT"
  | .TEMPERATURE => some "THERMODYNAMICTEMPERATUREUNIT"
  | .PRESSURE => some "PRESSUREUNIT"
  | .ENERGY => some "ENERGYUNIT"
  | .POWER => some "POWERUNIT"
  | .PLANEANGLE => some "PLANEANGLEUNIT"

/-- `IfcUnitType.default_si_name` (second tuple component). -/
def IfcUnitType.defaultSIName : IfcUnitType → Option String
  | .UNKNOWN => none
  | .COUNT => none
  | .LENGTH => some "METRE"
  | .AREA => some "SQUARE_METRE"
  | .VOLUME => some "CUBIC_METRE"
  | .MASS => some "GRAM"
  | .TIME => some "SECOND"
  | .TEMPERATURE => some "KELVIN"
  | .PRESSURE => some "PASCAL"
  | .ENERGY => some "JOULE"
  | .POWER => some "WATT"
  | .PLANEANGLE => some "RADIAN"

/-- `IfcUnitType.is_si` (third tuple component). -/
def IfcUnitType.isSI : IfcUnitType → Bool
  | .UNKNOWN => false
  | .COUNT => false
  | _ => true

/-- The member names of `IfcUnitType`, for `IfcUnitType[name]` lookup. -/
def IfcUnitType.memberName : IfcUnitType → String
  | .UNKNOWN => "UNKNOWN"
  | .COUNT => "COUNT"
  | .LENGTH => "LENGTH"
  | .AREA => "AREA"
  | .VOLUME => "VOLUME"
  | .MASS => "MASS"
  | .TIME => "TIME"
  | .TEMPERATURE => "TEMPERATURE"
  | .PRESSURE => "PRESSURE"
  | .ENERGY => "ENERGY"
  | .POWER => "POWER"
  | .PLANEANGLE => "PLANEANGLE"

/-- The members of `IfcUnitType` in declaration order. -/
def utMembers : List IfcUnitType :=
  [.UNKNOWN, .COUNT, .LENGTH, .AREA, .VOLUME, .MASS, .TIME,
   .TEMPERATURE, .PRESSURE, .ENERGY, .POWER, .PLANEANGLE]

/-- `IfcUnitType.from_ifc_unit_enum`: `None`/empty input gives UNKNOWN; the
input is upper-cased and matched against each member's token; on a miss a
warning is logged and UNKNOWN is returned.  Never raises. -/
def fromIfcUnitEnum (s? : Option String) : IfcUnitType :=
  match s? with
  | none => .UNKNOWN
  | some s =>
      if s = "" then .UNKNOWN
      else
        match utMembers.find?
            (fun t =>
              match t.ifcUnitEnum with
              | some tok => tok.data = upStr s.data
              | none => false) with
        | some t => t
        | none => .UNKNOWN

/-- `IfcUnitType[s.upper()]` lookup by member name (used by the factory's
semantic-name resolution for unit-type strings). -/
def utByName (s : String) : Option IfcUnitType :=
  utMembers.find? (fun t => t.memberName.data = upStr s.data)

/-! ### IfcValue and ValueFactory (`pyfc/models/value.py`) -/

/-- `IfcValue`: immutable (value, value_type, unit_type, prefix) record.
The `prefix` field is called `pfx` here. -/
structure IfcValue where
  value : PyVal
  value_type : IfcValueType
  unit_type : IfcUnitType
  pfx : IfcPfx
deriving DecidableEq

deriving instance DecidableEq for Except

/-- Construction of an `IfcValue`, including the `__post_init__` invariant
checks: a non-NONE prefix is silently reset to NONE when the unit type is
UNKNOWN or COUNT (with a logged warning); the value-type/unit-type mismatch
checks only log and never alter the record. -/
def mkIfcValue (w : PyVal) (vt : IfcValueType) (ut : IfcUnitType) (p : IfcPfx) : IfcValue :=
  { value := w
    value_type := vt
    unit_type := ut
    pfx := if p ≠ .NONE ∧ (ut = .UNKNOWN ∨ ut = .COUNT) then .NONE else p }

/-- `True` exactly when `IfcValue.__post_init__` logs the
"Prefix ... ignored for unit type ..." diagnostic. -/
def prefixResetDiag (ut : IfcUnitType) (p : IfcPfx) : Bool :=
  p ≠ .NONE ∧ (ut = .UNKNOWN ∨ ut = .COUNT)

/-- A `value_type` argument to `ValueFactory.create`: enum member or string. -/
inductive VTArg where
  | en (t : IfcValueType)
  | st (s : String)

/-- A `unit_type` argument to `ValueFactory.create`: enum member or string. -/
inductive UTArg where
  | en (t : IfcUnitType)
  | st (s : String)

/-- A `prefix` argument to `ValueFactory.create`: enum member or string. -/
inductive PfxArg where
  | en (p : IfcPfx)
  | st (s : String)

/-- `ValueFactory.create(value, value_type, unit_type, prefix)`.

* `value_type`: an enum member is taken as-is; a string goes through
  `IfcValueType(value_type)` whose `_missing_` hook never raises.
* `unit_type`: an enum member is taken as-is; a string is first looked up as
  a member name (`IfcUnitType[s.upper()]`) and otherwise resolved with
  `from_ifc_unit_enum`, which falls back to UNKNOWN without raising;
  `None` defaults to UNKNOWN.
* `prefix`: an enum member is taken as-is; a string goes through
  `IfcPrefix(prefix)`, which raises `ValueError` for an unrecognized
  non-empty string; `None` defaults to NONE.
* if `value_type` was not supplied it is inferred with `from_python_type`.
* the raw value is then coerced to the native representation of the
  resolved value type; coercion failure raises `ValueError`.

Raised `ValueError`s are modelled as `Except.error`. -/
def factoryCreate (raw : PyVal) (vt? : Option VTArg) (ut? : Option UTArg)
    (pf? : Option PfxArg) : Except String IfcValue :=
  let rvt : Option IfcValueType :=
    match vt? with
    | some (.en t) => some t
    | some (.st s) => some (IfcValueType.ofString s)
    | none => none
  let rut : IfcUnitType :=
    match ut? with
    | some (.en t) => t
    | some (.st s) =>
        match utByName s with
        | some t => t
        | none => fromIfcUnitEnum (some s)
    | none => .UNKNOWN
  let rpf : Option IfcPfx :=
    match pf? with
    | some (.en p) => some p
    | some (.st s) => pfxParse (some s)
    | none => some .NONE
  match rpf with
  | none => .error "Invalid type string provided"
  | some p =>
      let ivt := rvt.getD (fromPythonType raw)
      match ivt with
      | .INTEGER =>
          match pyIntOf raw with
          | some n => .ok (mkIfcValue (.pyint n) ivt rut p)
          | none => .error "cannot be converted to IfcInteger"
      | .REAL =>
          match pyFloatOf raw with
          | some q => .ok (mkIfcValue (.pyfloat q) ivt rut p)
          | none => .error "cannot be converted to IfcReal"
      | .BOOLEAN =>
          match as_bool raw with
          | some b => .ok (mkIfcValue (.pybool b) ivt rut p)
          | none => .error "cannot be converted to IfcBoolean"
      | .LOGICAL =>
          match as_bool raw with
          | some b => .ok (mkIfcValue (.pybool b) ivt rut p)
          | none => .error "cannot be converted to IfcLogical"
      | _ => .ok (mkIfcValue (.pystr (pyStrOf raw)) ivt rut p)

/-! ### Entity store model (the narrow ifcopenshell contract used by the
value/unit resolution engine) -/

/-- The six quantity shapes (`IfcQuantityLength` … `IfcQuantityTime`). -/
inductive QtyShape where
  | length | area | volume | weight | count | time
deriving DecidableEq

/-- The inherent semantic unit type of a quantity shape (`expected_unit` of
the fallback mapping in `IosPropertyAdapter.set_value`, and the unit type
assigned by the read direction). -/
def shapeUnitType : QtyShape → IfcUnitType
  | .length => .LENGTH
  | .area => .AREA
  | .volume => .VOLUME
  | .weight => .MASS
  | .count => .COUNT
  | .time => .TIME

/-- The store type name of a quantity shape. -/
def shapeTypeName : QtyShape → String
  | .length => "IfcQuantityLength"
  | .area => "IfcQuantityArea"
  | .volume => "IfcQuantityVolume"
  | .weight => "IfcQuantityWeight"
  | .count => "IfcQuantityCount"
  | .time => "IfcQuantityTime"

/-- An `IfcSIUnit` entity: `UnitType`, `Prefix` and `Name` attributes, each
optional (an unset optional attribute reads back as `None`). -/
structure SIUnitE where
  unitType : Option String
  pfx : Option String
  name : Option String
deriving DecidableEq

/-- The payload of one entity, covering the entity kinds the resolution
engine touches: wrapped-scalar holders (`IfcReal`, `IfcText`, …), SI units,
the unit-assignment container, the project root, single-value properties and
the six quantity shapes. -/
inductive EntityData where
  | scalar (ty : String) (w : PyVal)
  | siUnit (u : SIUnitE)
  | unitAssignment (units : List Nat)
  | project (unitsInContext : Option Nat)
  | singleValue (nm : String) (nominal : Option Nat) (unitRef : Option Nat)
  | qty (sh : QtyShape) (w : Option PyVal) (unitRef : Option Nat)
deriving DecidableEq

/-- The in-memory model: entities by id, the next fresh id, and the
context's `_is_modified` flag. -/
structure Model where
  entities : List (Nat × EntityData)
  nextId : Nat
  modified : Bool
deriving DecidableEq

/-- Entity lookup by id. -/
def findEnt : List (Nat × EntityData) → Nat → Option EntityData
  | [], _ => none
  | (j, d) :: tl, i => if i = j then some d else findEnt tl i

/-- The first `IfcProject` entity (`context.ifc_by_type("IfcProject")[0]`),
together with its `UnitsInContext` reference. -/
def firstProject : List (Nat × EntityData) → Option (Nat × Option Nat)
  | [] => none
  | (j, .project uic) :: _ => some (j, uic)
  | _ :: tl => firstProject tl

/-- `context.create_entity`: appends a fresh entity and marks the context
modified. -/
def createEnt (m : Model) (d : EntityData) : Nat × Model :=
  (m.nextId, ⟨m.entities ++ [(m.nextId, d)], m.nextId + 1, true⟩)

/-- Replace the data of entity `i` (an attribute write via `setattr`; does
not touch the modified flag). -/
def setEntList : List (Nat × EntityData) → Nat → EntityData → List (Nat × EntityData)
  | [], _, _ => []
  | (j, d0) :: tl, i, d => (j, if j = i then d else d0) :: setEntList tl i d

/-- Replace the data of entity `i` in a model. -/
def setEnt (m : Model) (i : Nat) (d : EntityData) : Model :=
  { m with entities := setEntList m.entities i d }

/-- `context.remove_entity`: drops the entity and marks the context
modified. -/
def removeEnt (m : Model) (i : Nat) : Model :=
  { m with
    entities := m.entities.filter (fun e => decide (e.1 ≠ i))
    modified := true }

/-- `context.mark_modified`. -/
def markModified (m : Model) : Model :=
  { m with modified := true }

/-- Write the `NominalValue` reference of a single-value property. -/
def setSVNominal (m : Model) (i : Nat) (nom : Option Nat) : Model :=
  match findEnt m.entities i with
  | some (.singleValue nm _ u) => setEnt m i (.singleValue nm nom u)
  | _ => m

/-- Write the `Unit` reference of a single-value property. -/
def setSVUnit (m : Model) (i : Nat) (u : Option Nat) : Model :=
  match findEnt m.entities i with
  | some (.singleValue nm nom _) => setEnt m i (.singleValue nm nom u)
  | _ => m

/-- Write the scalar attribute of a quantity entity. -/
def setQtyValue (m : Model) (i : Nat) (w : PyVal) : Model :=
  match findEnt m.entities i with
  | some (.qty sh _ u) => setEnt m i (.qty sh (some w) u)
  | _ => m

/-- Write the `Unit` reference of a quantity entity. -/
def setQtyUnit (m : Model) (i : Nat) (u : Option Nat) : Model :=
  match findEnt m.entities i with
  | some (.qty sh w _) => setEnt m i (.qty sh w u)
  | _ => m

/-- `is_a("IfcProperty") or is_a("IfcPhysicalQuantity")`
(`ios.utilities.is_property_or_quantity`, via schema inheritance). -/
def isPropOrQty : EntityData → Bool
  | .singleValue _ _ _ => true
  | .qty _ _ _ => true
  | _ => false

/-! ### Value/unit resolution engine (`pyfc/ios/value_handler.py`) -/

/-- `IosValueUnitHandler.create_ifc_value_entity`: chooses the store type of
the new wrapped-scalar holder from the value type — BOOLEAN and LOGICAL are
both written as `IfcLogical` holders — converts the raw value accordingly,
and creates the entity.  A failed conversion raises `IfcAdapterError`,
modelled as `Except.error`.  (The enum is exhaustive, so the warn-and-use-
`IfcText` fallback for unhandled members is unreachable.) -/
def createIfcValueEntity (v : IfcValue) (m : Model) : Except String (Nat × Model) :=
  match v.value_type with
  | .BOOLEAN =>
      match as_bool v.value with
      | some b => .ok (createEnt m (.scalar "IfcLogical" (.pybool b)))
      | none => .error "Could not create IFC value entity"
  | .LOGICAL =>
      match as_bool v.value with
      | some b => .ok (createEnt m (.scalar "IfcLogical" (.pybool b)))
      | none => .error "Could not create IFC value entity"
  | .INTEGER =>
      match pyIntOf v.value with
      | some n => .ok (createEnt m (.scalar "IfcInteger" (.pyint n)))
      | none => .error "Could not create IFC value entity"
  | .REAL =>
      match pyFloatOf v.value with
      | some q => .ok (createEnt m (.scalar "IfcReal" (.pyfloat q)))
      | none => .error "Could not create IFC value entity"
  | .TEXT => .ok (createEnt m (.scalar "IfcText" (.pystr (pyStrOf v.value))))
  | .LABEL => .ok (createEnt m (.scalar "IfcLabel" (.pystr (pyStrOf v.value))))
  | .IDENTIFIER => .ok (createEnt m (.scalar "IfcIdentifier" (.pystr (pyStrOf v.value))))

/-- The search loop of `get_or_create_unit` over the ids held by the
project's `UnitsInContext.Units`: returns the first `IfcSIUnit` whose
`UnitType` equals the requested unit-kind token and whose `Prefix` attribute
equals the requested prefix string (`None` for a NONE request; `None` only
matches `None`). -/
def searchUnits (m : Model) (isSI : Bool) (tok : String) (pstr : Option String) :
    List Nat → Option Nat
  | [] => none
  | i :: tl =>
      match findEnt m.entities i with
      | some (.siUnit u) =>
          if isSI ∧ u.unitType = some tok ∧ u.pfx = pstr then some i
          else searchUnits m isSI tok pstr tl
      | _ => searchUnits m isSI tok pstr tl

/-- `IosValueUnitHandler.get_or_create_unit(unit_type, prefix)`:

* UNKNOWN and COUNT yield no unit at all;
* otherwise the requested prefix is rendered as `prefix.value` for a
  non-NONE prefix and as `None` for NONE, and the model's unit-assignment
  container (reached through the first `IfcProject`) is searched for an
  existing matching SI unit;
* on a miss a new `IfcSIUnit` is created with the unit kind's default base
  name, except that MASS+KILO is named `"KILOGRAM"` with no `Prefix`
  attribute while every other prefixed unit carries an explicit `Prefix`;
* the new unit is appended to the container (which is itself created and
  attached to the project first when missing), marking the model
  modified. -/
def getOrCreateUnit (m : Model) (ut : IfcUnitType) (p : IfcPfx) : Option Nat × Model :=
  if ut = .UNKNOWN ∨ ut = .COUNT then (none, m)
  else
    match ut.ifcUnitEnum with
    | none => (none, m)
    | some tok =>
        let pstr : Option String := if p = .NONE then none else some p.val
        let projInfo := firstProject m.entities
        let found : Option Nat :=
          match projInfo with
          | some (_, some aid) =>
              match findEnt m.entities aid with
              | some (.unitAssignment ids) => searchUnits m ut.isSI tok pstr ids
              | _ => none
          | _ => none
        match found with
        | some uid => (some uid, m)
        | none =>
            if ut.isSI then
              let udata : SIUnitE :=
                if pstr.isSome then
                  if ut = .MASS ∧ p = .KILO then
                    { unitType := some tok, pfx := none, name := some "KILOGRAM" }
                  else
                    { unitType := some tok, pfx := pstr, name := ut.defaultSIName }
                else { unitType := some tok, pfx := none, name := ut.defaultSIName }
              let (nid, m1) := createEnt m (.siUnit udata)
              match projInfo with
              | some (_, some aid) =>
                  match findEnt m.entities aid with
                  | some (.unitAssignment ids) =>
                      (some nid, markModified (setEnt m1 aid (.unitAssignment (ids ++ [nid]))))
                  | _ => (some nid, markModified m1)
              | some (pid, none) =>
                  let (aid, m2) := createEnt m1 (.unitAssignment [])
                  let m3 := markModified (setEnt m2 pid (.project (some aid)))
                  (some nid, markModified (setEnt m3 aid (.unitAssignment [nid])))
              | none => (some nid, markModified m1)
            else (none, m)

/-- Final step of the read direction: when a raw value and a value type were
found, delegate to `ValueFactory.create` with the resolved enums; a factory
error is caught and yields `None`. -/
def finishCreate (rv : Option (PyVal × IfcValueType)) (ut : IfcUnitType) (p : IfcPfx) :
    Option IfcValue :=
  match rv with
  | some (raw, vt) => (factoryCreate raw (some (.en vt)) (some (.en ut)) (some (.en p))).toOption
  | none => none

/-- Unit classification of the read direction, applied once a unit entity
reference was found (lines 366-425 of `value_handler.py`), followed by the
delegation to the factory.  Returns the resolved value (or `None`) together
with the flag that is `True` exactly when the "Unit type mismatch …
Using entity type." warning was logged.

For an `IfcSIUnit`: its `UnitType` token is mapped back through
`from_ifc_unit_enum`; a known (non-UNKNOWN) classification replaces the
entity-derived unit type only when the latter is UNKNOWN — on a genuine
mismatch the entity-derived type is kept and the warning is logged.  A mass
unit named `"KILOGRAM"` reads as prefix KILO; otherwise the `Prefix`
attribute goes through `IfcPrefix(...)`, whose `ValueError` on an
unmappable string escapes to the outer `except` and yields `None`.  A unit
entity of any other kind leaves unit type and prefix as they were. -/
def resolveWithUnit (m : Model) (rv : Option (PyVal × IfcValueType)) (ut0 : IfcUnitType)
    (unitRef : Option Nat) : Option IfcValue × Bool :=
  match unitRef with
  | none => (finishCreate rv ut0 .NONE, false)
  | some uid =>
      match findEnt m.entities uid with
      | some (.siUnit u) =>
          let inferred := fromIfcUnitEnum u.unitType
          let ut1 :=
            if inferred ≠ .UNKNOWN ∧ ut0 = .UNKNOWN then inferred else ut0
          let warned : Bool := inferred ≠ .UNKNOWN ∧ ut0 ≠ .UNKNOWN ∧ ut0 ≠ inferred
          if ut1 = .MASS ∧ u.name = some "KILOGRAM" then
            (finishCreate rv ut1 .KILO, warned)
          else
            match pfxParse u.pfx with
            | some p => (finishCreate rv ut1 p, warned)
            | none => (none, warned)
      | _ => (finishCreate rv ut0 .NONE, false)

/-- `IosValueUnitHandler.get_ifc_value_from_entity`, instrumented with the
unit-mismatch-warning flag: branch on the entity's store type, read the
held scalar and the attached unit entity, classify the unit, and delegate
to the factory.  A single-value property reads `NominalValue`'s wrapped
scalar and maps its store type through `IfcValueType(...)`; each quantity
shape reads its fixed attribute with value type REAL (COUNT infers the
value type from the runtime value and reads no unit). -/
def resolveE (m : Model) (i : Nat) : Option IfcValue × Bool :=
  match findEnt m.entities i with
  | some (.singleValue _ nom unitRef) =>
      let rv : Option (PyVal × IfcValueType) :=
        match nom with
        | some nid =>
            match findEnt m.entities nid with
            | some (.scalar ty w) => some (w, IfcValueType.ofString ty)
            | _ => none
        | none => none
      resolveWithUnit m rv .UNKNOWN unitRef
  | some (.qty .count w _) =>
      resolveWithUnit m (w.map (fun x => (x, fromPythonType x))) .COUNT none
  | some (.qty sh w unitRef) =>
      resolveWithUnit m (w.map (fun x => (x, .REAL))) (shapeUnitType sh) unitRef
  | _ => (none, false)

/-- The read direction as the adapter consumes it (warning flag dropped). -/
def getIfcValueFromEntity (m : Model) (i : Nat) : Option IfcValue :=
  (resolveE m i).1

/-! ### `IosPropertyAdapter.set_value` (`pyfc/ios/properties.py`) -/

/-- The scalar comparison of the single-value branch (lines 570-585): same
store type required; two floats via `is_close`, anything else via `==`; the
result is `True` when an update is needed. -/
def svNeedsUpdate (oldD newD : Option EntityData) : Bool :=
  match oldD, newD with
  | some (.scalar oty ow), some (.scalar nty nw) =>
      if oty = nty then
        match ow, nw with
        | .pyfloat a, .pyfloat b => ¬ ratIsClose a b relTolDefault 0
        | _, _ => ¬ pyEq ow nw
      else true
  | _, _ => true

/-- The `QUANTITY_CONFIG` converter for a unit type (`qto_property.py`):
physical kinds coerce with `float`, COUNT tries `int` first and falls back
to `float`; UNKNOWN and the kinds without a quantity shape have no
configuration. -/
def qcfgConv (ut : IfcUnitType) (v : PyVal) : Option PyVal :=
  match ut with
  | .LENGTH => (pyFloatOf v).map .pyfloat
  | .AREA => (pyFloatOf v).map .pyfloat
  | .VOLUME => (pyFloatOf v).map .pyfloat
  | .MASS => (pyFloatOf v).map .pyfloat
  | .TIME => (pyFloatOf v).map .pyfloat
  | .COUNT =>
      match pyIntOf v with
      | some n => some (.pyint n)
      | none => (pyFloatOf v).map .pyfloat
  | _ => none

/-- The quantity shape configured for a unit type in `QUANTITY_CONFIG`. -/
def qcfgShape : IfcUnitType → Option QtyShape
  | .LENGTH => some .length
  | .AREA => some .area
  | .VOLUME => some .volume
  | .MASS => some .weight
  | .COUNT => some .count
  | .TIME => some .time
  | _ => none

/-- The hard-coded fallback converter of the `elif` chain in `set_value`
(by entity shape; identical to the configured converters). -/
def shapeConv (sh : QtyShape) (v : PyVal) : Option PyVal :=
  match sh with
  | .count =>
      match pyIntOf v with
      | some n => some (.pyint n)
      | none => (pyFloatOf v).map .pyfloat
  | _ => (pyFloatOf v).map .pyfloat

/-- The quantity-branch scalar comparison (lines 726-748): float against
float-or-int via `is_close`, int against int via `==`, otherwise both sides
through `float(...)` and `is_close` with a comparison error meaning
"update needed".  `True` when an update is needed. -/
def qtyNeedsUpdate (cur : Option PyVal) (cv : PyVal) : Bool :=
  match cur with
  | none => true
  | some curw =>
      match cv, curw with
      | .pyfloat b, .pyfloat a => ¬ ratIsClose a b relTolDefault 0
      | .pyfloat b, .pyint a => ¬ ratIsClose (a : ℚ) b relTolDefault 0
      | .pyfloat b, .pybool a => ¬ ratIsClose (if a then 1 else 0) b relTolDefault 0
      | .pyfloat b, .pystr s =>
          match parseFloat s with
          | some a => ¬ ratIsClose a b relTolDefault 0
          | none => true
      | .pyint b, .pyint a => ¬ (a = b)
      | .pyint b, .pybool a => ¬ ((if a then (1 : Int) else 0) = b)
      | .pyint b, .pyfloat a => ¬ ratIsClose a (b : ℚ) relTolDefault 0
      | .pyint b, .pystr s =>
          match parseFloat s with
          | some a => ¬ ratIsClose a (b : ℚ) relTolDefault 0
          | none => true
      | _, _ => true

/-- The single-value branch of `set_value` (lines 553-637), entered with the
property's current `NominalValue` and `Unit` references in hand. -/
def setValueSingle (m : Model) (pid : Nat) (nom : Option Nat) (unitRef : Option Nat)
    (v : IfcValue) : Except String (Bool × Model) :=
  match createIfcValueEntity v m with
  | .error e => .error e
  | .ok (newId, m1) =>
      let needsVU : Bool :=
        match nom with
        | none => true
        | some oid => svNeedsUpdate (findEnt m1.entities oid) (findEnt m1.entities newId)
      let oldIdS : Int := match nom with | some oid => (oid : Int) | none => -1
      let m2 : Model :=
        if needsVU then
          let m' := setSVNominal m1 pid (some newId)
          match nom with
          | some oid => if ¬ (oid = newId) then removeEnt m' oid else m'
          | none => m'
        else
          if ¬ (oldIdS = (newId : Int)) then removeEnt m1 newId else m1
      let (ue, m3) := getOrCreateUnit m2 v.unit_type v.pfx
      let needsUU : Bool := ¬ (ue = unitRef)
      let m4 : Model := if needsUU then setSVUnit m3 pid ue else m3
      let modified : Bool := needsVU ∨ needsUU
      if modified then .ok (true, markModified m4) else .ok (false, m4)

/-- The quantity branch of `set_value` (lines 640-795). -/
def setValueQty (m : Model) (pid : Nat) (sh : QtyShape) (w : Option PyVal)
    (unitRef : Option Nat) (v : IfcValue) : Except String (Bool × Model) :=
  let useCfg : Bool :=
    match qcfgShape v.unit_type with
    | some csh => csh = sh
    | none => false
  let expected : IfcUnitType := if useCfg then v.unit_type else shapeUnitType sh
  let conv : Option PyVal := if useCfg then qcfgConv v.unit_type v.value else shapeConv sh v.value
  match conv with
  | none => .ok (false, m)
  | some cv =>
      let needsVU : Bool := qtyNeedsUpdate w cv
      let m1 : Model := if needsVU then setQtyValue m pid cv else m
      if expected = .COUNT then
        if needsVU then .ok (true, markModified m1) else .ok (false, m1)
      else
        let (ue, m2) := getOrCreateUnit m1 v.unit_type v.pfx
        let needsUU : Bool := ¬ (ue = unitRef)
        let m3 : Model := if needsUU then setQtyUnit m2 pid ue else m2
        let modified : Bool := needsVU ∨ needsUU
        if modified then .ok (true, markModified m3) else .ok (false, m3)

/-- `IosPropertyAdapter.set_value(property_id, value)`: dispatch on the
entity found under `property_id`.  A missing or non-property entity raises
`IfcAdapterError`; a single-value property and the six quantity shapes go
to their branches; a conversion `ValueError` in the quantity branch is
caught and reported as `False` with no mutation. -/
def setValue (m : Model) (pid : Nat) (v : IfcValue) : Except String (Bool × Model) :=
  match findEnt m.entities pid with
  | none => .error "Property or quantity not found"
  | some d =>
      if isPropOrQty d then
        match d with
        | .singleValue _ nom unitRef => setValueSingle m pid nom unitRef v
        | .qty sh w unitRef => setValueQty m pid sh w unitRef v
        | _ => .error "unreachable"
      else .error "not an IfcProperty or IfcPhysicalQuantity"

/-! ### Model families used by the theorems -/

/-- The SI metre unit entity data (`LENGTHUNIT`, no prefix attribute). -/
def metreData : SIUnitE :=
  { unitType := some "LENGTHUNIT", pfx := none, name := some "METRE" }

/-- The SI kilogram unit entity data created by the MASS+KILO special case:
named `KILOGRAM`, `MASSUNIT` kind, no `Prefix` attribute. -/
def kgData : SIUnitE :=
  { unitType := some "MASSUNIT", pfx := none, name := some "KILOGRAM" }

/-- A model holding one single-value property `P` whose `IfcText` holder
wraps the string `s`, and no unit. -/
def mkTextPropModel (s : String) : Model :=
  { entities := [(1, .singleValue "P" (some 2) none), (2, .scalar "IfcText" (.pystr s))]
    nextId := 3
    modified := false }

/-- A model holding a project with a unit-assignment container containing
one METRE unit, and one length quantity with value `q` using that unit. -/
def mkLenQtyModel (q : ℚ) : Model :=
  { entities :=
      [(1, .project (some 2)), (2, .unitAssignment [3]), (3, .siUnit metreData),
       (4, .qty .length (some (.pyfloat q)) (some 3))]
    nextId := 5
    modified := false }

/-- A model holding a project with an empty unit-assignment container and
two fresh length quantities with no value and no unit. -/
def mkTwoQtyModel : Model :=
  { entities :=
      [(1, .project (some 2)), (2, .unitAssignment []),
       (4, .qty .length none none), (5, .qty .length none none)]
    nextId := 6
    modified := false }

/-- A model holding a project whose unit-assignment container already holds
one SI unit with data `u`. -/
def mkOneUnitModel (u : SIUnitE) : Model :=
  { entities := [(1, .project (some 2)), (2, .unitAssignment [3]), (3, .siUnit u)]
    nextId := 4
    modified := false }

/-- A model holding one weight quantity with value `q` whose unit entity is
the canonical kilogram unit. -/
def mkKgWeightModel (q : ℚ) : Model :=
  { entities := [(1, .qty .weight (some (.pyfloat q)) (some 2)), (2, .siUnit kgData)]
    nextId := 3
    modified := false }

/-- A model holding one quantity of shape `sh` with value `q` whose unit
entity has data `u`. -/
def mkQtyUnitModel (sh : QtyShape) (q : ℚ) (u : SIUnitE) : Model :=
  { entities := [(1, .qty sh (some (.pyfloat q)) (some 2)), (2, .siUnit u)]
    nextId := 3
    modified := false }

/-- The `Unit` reference of a quantity entity. -/
def qtyUnitRefOf (m : Model) (i : Nat) : Option Nat :=
  match findEnt m.entities i with
  | some (.qty _ _ u) => u
  | _ => none

/-- The ids held by the project's unit-assignment container. -/
def containerUnits (m : Model) : List Nat :=
  match firstProject m.entities with
  | some (_, some aid) =>
      match findEnt m.entities aid with
      | some (.unitAssignment ids) => ids
      | _ => []
  | _ => []

/-- The store type of the holder behind a single-value property's
`NominalValue`. -/
def nominalTy (m : Model) (i : Nat) : Option String :=
  match findEnt m.entities i with
  | some (.singleValue _ (some nid) _) =>
      match findEnt m.entities nid with
      | some (.scalar ty _) => some ty
      | _ => none
  | _ => none

/-- Run `set_value` twice (two persist calls on two entities) and return the
final model when both calls succeed. -/
def runTwo (m : Model) (i j : Nat) (vi vj : IfcValue) : Option Model :=
  match setValue m i vi with
  | .ok (_, m1) =>
      match setValue m1 j vj with
      | .ok (_, m2) => some m2
      | .error _ => none
  | .error _ => none

/-- Result flag and resulting dirty flag of one `set_value` call. -/
def setValueDirty (m : Model) (i : Nat) (v : IfcValue) : Option (Bool × Bool) :=
  match setValue m i v with
  | .ok (b, m1) => some (b, m1.modified)
  | .error _ => none

/-! ### Helper lemmas -/

/-- `is_close` is reflexive: the tolerance bound is trivially met at
distance zero. -/
theorem ratIsClose_self (q : ℚ) : ratIsClose q q relTolDefault 0 = true := by
  unfold ratIsClose
  rw [sub_self, abs_zero]
  exact decide_eq_true (le_max_right _ 0)

/-! ### Claim theorems -/

/-- C9 (confirmed): the taxonomy lookups never raise on unrecognized input:
`SemanticUnitType.from_store_token("BOGUS")` (that is,
`IfcUnitType.from_ifc_unit_enum`) returns UNKNOWN, and
`SemanticValueType.from_store_token("IfcSomeWeirdMeasure")` (the
`IfcValueType` constructor with its `_missing_` hook) returns REAL via the
"MEASURE" substring heuristic, with the "COUNT" and "LOGICAL"/"BOOLEAN"
measure checks taking priority; both functions are total in this model
because the corresponding Python code has no raising path for a string
input. -/
theorem claim_C9_thm :
    fromIfcUnitEnum (some "BOGUS") = .UNKNOWN ∧
    IfcValueType.ofString "IfcSomeWeirdMeasure" = .REAL ∧
    IfcValueType.ofString "IfcCountMeasure" = .INTEGER ∧
    IfcValueType.ofString "IfcBooleanMeasure" = .LOGICAL := by
  refine ⟨by decide, by decide, by decide, by decide⟩

/-- C8 (confirmed): every `IfcValue` whose unit type is UNKNOWN or COUNT
completes construction with prefix NONE — a different prefix passed to the
constructor is silently coerced to NONE by `__post_init__` (with a logged
diagnostic, captured by `prefixResetDiag`), never rejected. -/
theorem claim_C8_thm (w : PyVal) (vt : IfcValueType) (ut : IfcUnitType) (p : IfcPfx)
    (h : ut = .UNKNOWN ∨ ut = .COUNT) : (mkIfcValue w vt ut p).pfx = .NONE := by
  rcases h with h | h <;> subst h <;>
    by_cases hp : p = .NONE <;> simp [mkIfcValue, hp]

/-- Witness for C8 at a concrete input: a KILO prefix passed together with
unit type UNKNOWN is reset to NONE. -/
theorem claim_C8_witness :
    (IfcUnitType.UNKNOWN = .UNKNOWN ∨ IfcUnitType.UNKNOWN = .COUNT) ∧
    (mkIfcValue (.pystr "x") .TEXT .UNKNOWN .KILO).pfx = .NONE :=
  ⟨Or.inl rfl, claim_C8_thm (.pystr "x") .TEXT .UNKNOWN .KILO (Or.inl rfl)⟩

/-- C7 (code_bug): value-type inference at the failing input.  The claim
(and the spec) say a float-like raw infers REAL, but `convert.is_int` is
`int(value)`-based and `int(3.5)` truncates to `3` without raising, so
`is_int(3.5)` is `True` and `from_python_type(3.5)` returns INTEGER — the
factory then silently truncates `create(3.5)` to the integer 3.  (The
string cases of the claim do hold: `"3"` infers INTEGER, `"3.5"` infers
REAL, a bool infers LOGICAL.) -/
theorem claim_C7_thm :
    fromPythonType (.pyfloat (Rat.divInt 7 2)) = .INTEGER ∧
    factoryCreate (.pyfloat (Rat.divInt 7 2)) none none none =
      .ok (mkIfcValue (.pyint 3) .INTEGER .UNKNOWN .NONE) ∧
    fromPythonType (.pystr "3") = .INTEGER ∧
    fromPythonType (.pystr "3.5") = .REAL ∧
    fromPythonType (.pybool true) = .LOGICAL ∧
    fromPythonType (.pystr "abc") = .TEXT := by
  refine ⟨by decide, by decide, by decide, by decide, by decide, by decide⟩

/-- C2 counterexample: the claim says an explicitly supplied `value_type`
string that the taxonomy cannot resolve makes `ValueFactory.create` raise
`InvalidValueError`; in fact `IfcValueType._missing_` falls back to TEXT
with only a warning, and `create("x", value_type="IfcBogusType")` returns a
TEXT value without raising. -/
theorem claim_C2_counterexample :
    factoryCreate (.pystr "x") (some (.st "IfcBogusType")) none none =
      .ok (mkIfcValue (.pystr "x") .TEXT .UNKNOWN .NONE) := by
  decide

/-- C2 (corrected): of the three argument kinds, only an unresolvable
`prefix` string makes `create` raise (`IfcPrefix("BOGUS")` raises
`ValueError`, re-raised by the factory); an unresolvable `value_type`
string falls back to TEXT and an unresolvable `unit_type` string falls
back to UNKNOWN, each with a warning only.  Passing `None` still triggers
inference for `value_type` and the UNKNOWN/NONE defaults for
`unit_type`/`prefix`. -/
theorem claim_C2_thm (s : String) (h : pfxParse (some s) = none) :
    factoryCreate (.pystr "x") (some (.st "IfcBogusType")) none none =
      .ok (mkIfcValue (.pystr "x") .TEXT .UNKNOWN .NONE) ∧
    factoryCreate (.pystr "x") none (some (.st "BOGUSUNIT")) none =
      .ok (mkIfcValue (.pystr "x") .TEXT .UNKNOWN .NONE) ∧
    (factoryCreate (.pystr "x") none none (some (.st s))).toOption = none ∧
    factoryCreate (.pystr "abc") none none none =
      .ok (mkIfcValue (.pystr "abc") .TEXT .UNKNOWN .NONE) := by
  refine ⟨by decide, by decide, ?_, by decide⟩
  simp [factoryCreate, h, Except.toOption]

/-- Witness for C2 at the concrete unresolvable prefix string "BOGUS". -/
theorem claim_C2_witness :
    pfxParse (some "BOGUS") = none ∧
    (factoryCreate (.pystr "x") none none (some (.st "BOGUS"))).toOption = none :=
  ⟨by decide, (claim_C2_thm "BOGUS" (by decide)).2.2.1⟩

/-- C1 counterexample: the claim says that when an attached SI unit's
unit-kind token maps to a known unit type different from the one derived
from the quantity shape, the resulting Value carries the unit entity's
classification.  Concretely: an `IfcQuantityLength` holding `2.0` with an
attached `AREAUNIT` SI unit resolves to a Value with `unit_type == LENGTH`
(the quantity-shape type; the code logs "Using entity type." and keeps it),
not AREA as the claim requires — the warning is logged (flag `true`). -/
theorem claim_C1_counterexample :
    resolveE (mkQtyUnitModel .length 2 ⟨some "AREAUNIT", none, some "SQUARE_METRE"⟩) 1 =
      (some (mkIfcValue (.pyfloat 2) .REAL .LENGTH .NONE), true) ∧
    IfcUnitType.LENGTH ≠ IfcUnitType.AREA := by
  refine ⟨by decide, by decide⟩

/-- C1 (corrected): in the read direction, when the attached SI unit
entity's unit-kind token maps to a known SemanticUnitType that differs from
the unit type derived from the quantity shape, the resulting Value keeps
the quantity-shape-derived unit type (the unit entity's classification is
discarded), and the mismatch warning is logged; the unit entity still
supplies the prefix (here under the hypotheses that the shape is not COUNT,
the unit is not a kilogram-named mass unit, and the prefix token parses). -/
theorem claim_C1_thm (sh : QtyShape) (q : ℚ) (u : SIUnitE) (p : IfcPfx)
    (hc : sh ≠ .count)
    (hne : fromIfcUnitEnum u.unitType ≠ .UNKNOWN)
    (hmm : fromIfcUnitEnum u.unitType ≠ shapeUnitType sh)
    (hkg : ¬(shapeUnitType sh = .MASS ∧ u.name = some "KILOGRAM"))
    (hp : pfxParse u.pfx = some p) :
    resolveE (mkQtyUnitModel sh q u) 1 =
      (some (mkIfcValue (.pyfloat q) .REAL (shapeUnitType sh) p), true) := by
  cases sh
  case count => exact absurd rfl hc
  all_goals
    simp only [shapeUnitType] at hmm hkg ⊢
  all_goals
    have hmm2 := Ne.symm hmm
    simp [resolveE, mkQtyUnitModel, findEnt, resolveWithUnit, finishCreate,
      factoryCreate, pyFloatOf, hne, hp, hmm, hmm2, hkg, mkIfcValue,
      shapeUnitType, Except.toOption]

/-- Witness for C1 at a concrete mismatched unit: a length quantity with an
attached AREAUNIT SI unit. -/
theorem claim_C1_witness :
    (QtyShape.length ≠ QtyShape.count) ∧
    (fromIfcUnitEnum (SIUnitE.mk (some "AREAUNIT") none (some "SQUARE_METRE")).unitType ≠ .UNKNOWN) ∧
    resolveE (mkQtyUnitModel .length 3 ⟨some "AREAUNIT", none, some "SQUARE_METRE"⟩) 1 =
      (some (mkIfcValue (.pyfloat 3) .REAL (shapeUnitType .length) .NONE), true) :=
  ⟨by decide, by decide,
    claim_C1_thm .length 3 ⟨some "AREAUNIT", none, some "SQUARE_METRE"⟩ .NONE
      (by decide) (by decide) (by decide) (by decide) (by decide)⟩

/-- C3 counterexample: the claim says the unit search treats an absent
("no prefix") prefix field and an empty-string prefix field as equivalent.
It does not: with a container already holding an SI `LENGTHUNIT` unit whose
`Prefix` attribute is the empty string, `get_or_create_unit(LENGTH, NONE)`
fails to match it (`"" != None` in the search) and creates a second SI
length unit, so the container ends with two such entities instead of one
shared one. -/
theorem claim_C3_counterexample :
    (getOrCreateUnit (mkOneUnitModel ⟨some "LENGTHUNIT", some "", some "METRE"⟩)
        .LENGTH .NONE).1 = some 4 ∧
    containerUnits (getOrCreateUnit (mkOneUnitModel ⟨some "LENGTHUNIT", some "", some "METRE"⟩)
        .LENGTH .NONE).2 = [3, 4] ∧
    findEnt (getOrCreateUnit (mkOneUnitModel ⟨some "LENGTHUNIT", some "", some "METRE"⟩)
        .LENGTH .NONE).2.entities 4 = some (.siUnit metreData) := by
  refine ⟨by decide, by decide, by decide⟩

/-- C3 (corrected): starting from a model whose unit-assignment container
holds no SI length unit, persisting two different length quantities that
both require `(LENGTH, NONE)` yields — in either order of the two persist
calls — exactly one underlying SI unit entity (the METRE unit, id 6),
shared by both quantities.  The search matches the unit-kind token and the
prefix field exactly: a requested NONE prefix is looked up as an absent
(`None`) prefix field, and an entity whose prefix field holds the empty
string is not treated as equivalent to an absent one (see the
counterexample). -/
theorem claim_C3_thm (q1 q2 : ℚ) :
    ((runTwo mkTwoQtyModel 4 5 (mkIfcValue (.pyfloat q1) .REAL .LENGTH .NONE)
        (mkIfcValue (.pyfloat q2) .REAL .LENGTH .NONE)).map
        (fun m => (qtyUnitRefOf m 4, qtyUnitRefOf m 5, containerUnits m,
          findEnt m.entities 6)) =
      some (some 6, some 6, [6], some (.siUnit metreData))) ∧
    ((runTwo mkTwoQtyModel 5 4 (mkIfcValue (.pyfloat q2) .REAL .LENGTH .NONE)
        (mkIfcValue (.pyfloat q1) .REAL .LENGTH .NONE)).map
        (fun m => (qtyUnitRefOf m 4, qtyUnitRefOf m 5, containerUnits m,
          findEnt m.entities 6)) =
      some (some 6, some 6, [6], some (.siUnit metreData))) := by
  exact ⟨rfl, rfl⟩

/-- C4 (confirmed): when the unit-assignment container holds no SI unit
matching `(MASSUNIT, "KILO")` — which the engine itself never creates,
since the MASS+KILO case always goes to the kilogram representation —
`get_or_create_unit(MASS, KILO)` creates and returns a unit entity whose
`Name` is `"KILOGRAM"`, whose kind is `MASSUNIT` and which has no explicit
`Prefix` attribute, appending it to the container; and resolving a weight
quantity whose attached unit entity is that kilogram entity yields
`unit_type == MASS` and `prefix == KILO`. -/
theorem claim_C4_thm (u : SIUnitE) (q : ℚ)
    (hnm : ¬(u.unitType = some "MASSUNIT" ∧ u.pfx = some "KILO")) :
    (getOrCreateUnit (mkOneUnitModel u) .MASS .KILO).1 = some 4 ∧
    findEnt (getOrCreateUnit (mkOneUnitModel u) .MASS .KILO).2.entities 4 =
      some (.siUnit kgData) ∧
    containerUnits (getOrCreateUnit (mkOneUnitModel u) .MASS .KILO).2 = [3, 4] ∧
    getIfcValueFromEntity (mkKgWeightModel q) 1 =
      some (mkIfcValue (.pyfloat q) .REAL .MASS .KILO) := by
  refine ⟨?_, ?_, ?_, rfl⟩ <;>
    simp [getOrCreateUnit, mkOneUnitModel, searchUnits, findEnt, hnm,
      containerUnits, firstProject, createEnt, setEnt, setEntList, markModified,
      kgData, IfcUnitType.ifcUnitEnum, IfcUnitType.isSI, IfcPfx.val,
      IfcUnitType.defaultSIName]

/-- Witness for C4 at a concrete container holding one METRE unit. -/
theorem claim_C4_witness :
    ¬((metreData.unitType = some "MASSUNIT") ∧ metreData.pfx = some "KILO") ∧
    ((getOrCreateUnit (mkOneUnitModel metreData) .MASS .KILO).1 = some 4 ∧
      findEnt (getOrCreateUnit (mkOneUnitModel metreData) .MASS .KILO).2.entities 4 =
        some (.siUnit kgData) ∧
      containerUnits (getOrCreateUnit (mkOneUnitModel metreData) .MASS .KILO).2 = [3, 4] ∧
      getIfcValueFromEntity (mkKgWeightModel 1) 1 =
        some (mkIfcValue (.pyfloat 1) .REAL .MASS .KILO)) :=
  ⟨by decide, claim_C4_thm metreData 1 (by decide)⟩

/-- C5 (confirmed): persisting a Value constructed with value_type BOOLEAN
(whose raw is then a bool `b`) into a single-value slot stores it in the
logical-holder representation (`IfcLogical`), and resolving the persisted
entity yields a Value with `value_type == LOGICAL` — not BOOLEAN — and the
same truth value. -/
theorem claim_C5_thm (b : Bool) :
    setValue (mkTextPropModel "old") 1 (mkIfcValue (.pybool b) .BOOLEAN .UNKNOWN .NONE) =
      .ok (true, ⟨[(1, .singleValue "P" (some 3) none),
        (3, .scalar "IfcLogical" (.pybool b))], 4, true⟩) ∧
    nominalTy (⟨[(1, .singleValue "P" (some 3) none),
        (3, .scalar "IfcLogical" (.pybool b))], 4, true⟩ : Model) 1 = some "IfcLogical" ∧
    getIfcValueFromEntity (⟨[(1, .singleValue "P" (some 3) none),
        (3, .scalar "IfcLogical" (.pybool b))], 4, true⟩ : Model) 1 =
      some (mkIfcValue (.pybool b) .LOGICAL .UNKNOWN .NONE) := by
  exact ⟨rfl, rfl, rfl⟩

/-- C6 counterexample: the claim says a no-op `set_value` does not mark the
model dirty.  For a single-value property it does: with a text property
holding `"x"`, setting the structurally equal resolved value returns
`False` ("unchanged") and leaves the entity's references and the entity
list untouched, but the transient holder created for the comparison (and
immediately deleted) marks the context modified. -/
theorem claim_C6_counterexample :
    getIfcValueFromEntity (mkTextPropModel "x") 1 =
      some (mkIfcValue (.pystr "x") .TEXT .UNKNOWN .NONE) ∧
    setValue (mkTextPropModel "x") 1 (mkIfcValue (.pystr "x") .TEXT .UNKNOWN .NONE) =
      .ok (false, ⟨(mkTextPropModel "x").entities, 4, true⟩) ∧
    (mkTextPropModel "x").modified = false := by
  refine ⟨by decide, by decide, by decide⟩

/-- C6 (corrected): calling `set_value` with a Value structurally equal to
the currently resolved value (floats within `rel_tol=1e-9`, other scalars
by equality) leaves the entity's scalar and unit references unchanged,
leaves no newly created scalar-holder entity behind, and returns the
"unchanged" result `False` — but only for quantity entities is the model
left entirely untouched (dirty flag included); for single-value properties
the comparison creates and then deletes a transient holder entity, which
marks the model dirty even though the call reports "unchanged". -/
theorem claim_C6_thm (q : ℚ) (s : String) :
    setValue (mkLenQtyModel q) 4 (mkIfcValue (.pyfloat q) .REAL .LENGTH .NONE) =
      .ok (false, mkLenQtyModel q) ∧
    setValue (mkTextPropModel s) 1 (mkIfcValue (.pystr s) .TEXT .UNKNOWN .NONE) =
      .ok (false, ⟨(mkTextPropModel s).entities, 4, true⟩) := by
  constructor
  · have h1 : qtyNeedsUpdate (some (.pyfloat q)) (.pyfloat q) = false := by
      simp [qtyNeedsUpdate, ratIsClose_self]
    simp [setValue, setValueQty, mkLenQtyModel, findEnt, isPropOrQty, qcfgShape,
      qcfgConv, pyFloatOf, mkIfcValue, h1, getOrCreateUnit, firstProject,
      searchUnits, metreData, IfcUnitType.ifcUnitEnum, IfcUnitType.isSI]
  · have h2 : svNeedsUpdate (some (.scalar "IfcText" (.pystr s)))
        (some (.scalar "IfcText" (.pystr s))) = false := by
      simp [svNeedsUpdate, pyEq]
    simp [setValue, setValueSingle, mkTextPropModel, findEnt, isPropOrQty,
      createIfcValueEntity, mkIfcValue, pyStrOf, createEnt, h2, removeEnt,
      getOrCreateUnit, List.filter]

/-- C10 (confirmed): atomicity of a failed quantity write.  For every model
and every quantity entity in it, if `set_value` is called with a Value
whose raw scalar the quantity's configured converter cannot convert (e.g. a
non-numeric string for a length quantity), `set_value` returns `False`
without raising, and the model — in particular the entity's quantity
attribute and `Unit` reference — is exactly as it was before the call: the
conversion failure is raised and caught before any mutation. -/
theorem claim_C10_thm (m : Model) (pid : Nat) (sh : QtyShape) (w : Option PyVal)
    (uo : Option Nat) (raw : PyVal) (vt : IfcValueType) (p : IfcPfx)
    (h : findEnt m.entities pid = some (.qty sh w uo))
    (hconv : qcfgConv (shapeUnitType sh) raw = none) :
    setValue m pid (mkIfcValue raw vt (shapeUnitType sh) p) = .ok (false, m) := by
  cases sh <;>
    simp [setValue, h, isPropOrQty, setValueQty, qcfgShape, shapeUnitType,
      mkIfcValue, hconv] <;>
    simp [shapeUnitType] at hconv <;>
    simp [hconv]

/-- Witness for C10: a length quantity holding `0.0`, written with the
non-numeric string `"abc"`. -/
theorem claim_C10_witness :
    findEnt (mkLenQtyModel 0).entities 4 =
      some (.qty .length (some (.pyfloat 0)) (some 3)) ∧
    qcfgConv (shapeUnitType .length) (.pystr "abc") = none ∧
    setValue (mkLenQtyModel 0) 4 (mkIfcValue (.pystr "abc") .TEXT (shapeUnitType .length) .NONE) =
      .ok (false, mkLenQtyModel 0) :=
  ⟨by decide, by decide,
    claim_C10_thm (mkLenQtyModel 0) 4 .length (some (.pyfloat 0)) (some 3)
      (.pystr "abc") .TEXT .NONE (by decide) (by decide)⟩
